import Mathlib

/-!
# CrediBot recommendation engine: verification of the spec against the code

A shallow embedding, in Lean 4, of the reward / ranking / action-selection
core of the CrediBot recommendation engine
(`recengine/src/utils/reward_calc.py`, `enhanced_ranking.py`,
`action_selector.py`), together with theorems settling the frozen claims
about that engine.

Numbers are modelled as rationals (`ℚ`); Python dictionaries appearing in
the scoring path are modelled as association lists; fallible operations
(indexing `all_rewards[0]` on a possibly-empty list) are modelled with
`Option`.  Fields of the Python records that never enter the scoring logic
(display names, reasoning strings, per-category breakdown maps) are omitted
from the records; every field that the logic reads or that a claim mentions
is present.
-/

namespace CrediBot

set_option maxRecDepth 40000

/-- A card from the catalog (`RewardCalculator._load_card_catalog` row after
parsing: `bonus_categories` decoded from JSON into a mapping, numeric fields
converted).  The mapping is modelled as an association list. -/
structure Card where
  card_id : String
  issuer : String
  reward_type : String
  base_rate_pct : ℚ
  bonus_categories : List (String × ℚ)
  bonus_cap_amt : ℚ
  annual_fee : ℚ
  point_value_cent : ℚ
  signup_bonus_value : ℚ
  deriving DecidableEq

/-- Per-(card, transaction) reward record (`reward_calc.CardReward`; the
display-only `card_name` field is omitted). -/
structure CardReward where
  card_id : String
  base_rate : ℚ
  bonus_rate : ℚ
  applicable_rate : ℚ
  reward_amount : ℚ
  annual_fee : ℚ
  net_benefit : ℚ
  point_value_cents : ℚ
  reward_type : String
  deriving DecidableEq

/-- Cross-card analysis of one transaction (`reward_calc.RewardAnalysis`). -/
structure RewardAnalysis where
  transaction_amount : ℚ
  transaction_category : String
  current_card_reward : Option CardReward
  best_card_reward : CardReward
  best_rate : ℚ
  reward_gap_pct : ℚ
  extra_reward_amt : ℚ
  num_better_cards : ℕ
  all_card_rewards : List CardReward
  deriving DecidableEq

/-- Dictionary lookup in the decoded `bonus_categories` mapping. -/
def lookupCat (l : List (String × ℚ)) (c : String) : Option ℚ :=
  (l.find? fun p => p.1 == c).map fun p => p.2

/-- Model of `RewardCalculator.get_reward_rate_for_category`: exact category match,
then the `online_shopping`/`shopping` alias, then the `rotating` key,
otherwise the base rate. -/
def get_reward_rate_for_category (card : Card) (category : String) : ℚ :=
  match lookupCat card.bonus_categories category with
  | some r => r
  | none =>
    match (if category = "online_shopping" ∨ category = "shopping" then
            lookupCat card.bonus_categories "shopping" else none) with
    | some r => r
    | none =>
      match (if category = "rotating" then
              lookupCat card.bonus_categories "rotating" else none) with
      | some r => r
      | none => card.base_rate_pct

/-- Line 106 of `reward_calc.py`:
`applicable_rate = bonus_rate if bonus_rate > base_rate else base_rate`. -/
def applicableRate (card : Card) (category : String) : ℚ :=
  let bonus_rate := get_reward_rate_for_category card category
  if card.base_rate_pct < bonus_rate then bonus_rate else card.base_rate_pct

/-- Raw reward units before cap (lines 110–113 of `reward_calc.py`):
units per dollar for points/miles, a percentage for cashback. -/
def rawRewardPoints (card : Card) (amount : ℚ) (category : String) : ℚ :=
  if card.reward_type = "points" ∨ card.reward_type = "miles" then
    amount * applicableRate card category
  else
    amount * (applicableRate card category / 100)

/-- Line 119 of `reward_calc.py`: `max_bonus_points = bonus_cap * (bonus_rate / 100)`. -/
def maxBonusPoints (card : Card) (category : String) : ℚ :=
  card.bonus_cap_amt * (get_reward_rate_for_category card category / 100)

/-- Cap blend (lines 116–122): when a positive cap exists and the category
rate beats base, units above the cap earn at the base rate. -/
def cappedRewardPoints (card : Card) (amount : ℚ) (category : String) : ℚ :=
  let bonus_rate := get_reward_rate_for_category card category
  let reward_points := rawRewardPoints card amount category
  if 0 < card.bonus_cap_amt ∧ card.base_rate_pct < bonus_rate then
    let max_bonus_points := maxBonusPoints card category
    if max_bonus_points < reward_points then
      max_bonus_points + (reward_points - max_bonus_points) * card.base_rate_pct / bonus_rate
    else reward_points
  else reward_points

/-- Model of `RewardCalculator.calculate_reward_amount` (lines 97–146). -/
def calculate_reward_amount (card : Card) (amount : ℚ) (category : String) :
    CardReward :=
  let base_rate := card.base_rate_pct
  let bonus_rate := get_reward_rate_for_category card category
  let reward_points := cappedRewardPoints card amount category
  let point_value := card.point_value_cent / 100
  let reward_amount := reward_points * point_value
  let annual_transactions : ℚ := if 0 < amount then 12 * 1000 / amount else 1
  let annual_fee_per_txn :=
    if 0 < annual_transactions then card.annual_fee / annual_transactions else 0
  { card_id := card.card_id
    base_rate := base_rate
    bonus_rate := bonus_rate
    applicable_rate := applicableRate card category
    reward_amount := reward_amount
    annual_fee := card.annual_fee
    net_benefit := reward_amount - annual_fee_per_txn
    point_value_cents := card.point_value_cent
    reward_type := card.reward_type }

/-- Descending order on `reward_amount`, the sort key of
`all_rewards.sort(key=lambda x: x.reward_amount, reverse=True)`. -/
def rewardDescRel (a b : CardReward) : Prop :=
  b.reward_amount ≤ a.reward_amount

instance : DecidableRel rewardDescRel :=
  fun a b => inferInstanceAs (Decidable (b.reward_amount ≤ a.reward_amount))

instance : IsTotal CardReward rewardDescRel :=
  ⟨fun a b => le_total b.reward_amount a.reward_amount⟩

instance : IsTrans CardReward rewardDescRel :=
  ⟨fun _ _ _ h1 h2 => le_trans h2 h1⟩

/-- The stable descending sort of line 165 of `reward_calc.py` (Python's
stable sort with `reverse=True` keeps equal keys in input order, as does
`insertionSort` with this relation). -/
def sortRewardsDesc (l : List CardReward) : List CardReward :=
  l.insertionSort rewardDescRel

/-- Pure reward (lines 180–188): `amount × applicable_rate × point value`
for points/miles, `amount × applicable_rate / 100` for cashback — no cap,
no fee amortization. -/
def pureReward (amount : ℚ) (r : CardReward) : ℚ :=
  if r.reward_type = "points" ∨ r.reward_type = "miles" then
    amount * r.applicable_rate * (r.point_value_cents / 100)
  else
    amount * (r.applicable_rate / 100)

/-- Body of `analyze_transaction` once the best card (head of the sorted
reward list) exists; `all_rewards` is the full sorted list. -/
def analyzeCore (amount : ℚ) (category : String)
    (current_card_id : Option String)
    (best_reward : CardReward) (all_rewards : List CardReward) :
    RewardAnalysis :=
  let current_reward :=
    match current_card_id with
    | some cid => all_rewards.find? fun r => r.card_id == cid
    | none => none
  let gap :=
    match current_reward with
    | some cr =>
      let current_pure := pureReward amount cr
      let best_pure := pureReward amount best_reward
      ((if 0 < current_pure then
          (best_pure - current_pure) / current_pure * 100 else 0),
        best_pure - current_pure)
    | none => (0, best_reward.reward_amount)
  let num_better :=
    match current_reward with
    | some cr =>
      (all_rewards.filter fun r => cr.reward_amount < r.reward_amount).length
    | none => all_rewards.length
  { transaction_amount := amount
    transaction_category := category
    current_card_reward := current_reward
    best_card_reward := best_reward
    best_rate := best_reward.applicable_rate
    reward_gap_pct := gap.1
    extra_reward_amt := gap.2
    num_better_cards := num_better
    all_card_rewards := all_rewards }

/-- Model of `RewardCalculator.analyze_transaction` (lines 148–212).  The Python code
indexes `all_rewards[0]`, which raises on an empty catalog; that fallible
step is the `Option`: `none` is the error branch. -/
def analyze_transaction (cards : List Card) (amount : ℚ) (category : String)
    (current_card_id : Option String) : Option RewardAnalysis :=
  let all_rewards :=
    sortRewardsDesc (cards.map fun c => calculate_reward_amount c amount category)
  match all_rewards with
  | [] => none
  | best_reward :: rest =>
    some (analyzeCore amount category current_card_id best_reward
      (best_reward :: rest))

/-! ## Concrete inputs used by witnesses and counterexamples -/

/-- A cashback card with a 10% dining bonus but a tiny ($1) bonus cap. -/
def capDiningCard : Card :=
  { card_id := "cap_dining_card", issuer := "TestBank", reward_type := "cashback"
    base_rate_pct := 1, bonus_categories := [("dining", 10)], bonus_cap_amt := 1
    annual_fee := 0, point_value_cent := 100, signup_bonus_value := 0 }

/-- A plain 2% cashback card with no bonus categories and no cap. -/
def flatTwoCard : Card :=
  { card_id := "flat_two_card", issuer := "TestBank", reward_type := "cashback"
    base_rate_pct := 2, bonus_categories := [], bonus_cap_amt := 0
    annual_fee := 0, point_value_cent := 100, signup_bonus_value := 0 }

/-- A cashback card with a 10% dining bonus capped at $100 of bonus spend. -/
def capHundredCard : Card :=
  { card_id := "cap_hundred_card", issuer := "TestBank", reward_type := "cashback"
    base_rate_pct := 1, bonus_categories := [("dining", 10)], bonus_cap_amt := 100
    annual_fee := 0, point_value_cent := 100, signup_bonus_value := 0 }

/-- Reward record of `flatTwoCard` on a $100 transaction in category
`other`, used by the gap witness. -/
def gapCRWitness : CardReward :=
  { card_id := "flat_two_card", base_rate := 2, bonus_rate := 2
    applicable_rate := 2, reward_amount := 2, annual_fee := 0
    net_benefit := 2, point_value_cents := 100, reward_type := "cashback" }

/-- Analysis of a $100 `other` transaction over the single-card catalog
`[flatTwoCard]` with that card current, used by the gap witness. -/
def gapRAWitness : RewardAnalysis :=
  { transaction_amount := 100, transaction_category := "other"
    current_card_reward := some gapCRWitness, best_card_reward := gapCRWitness
    best_rate := 2, reward_gap_pct := 0, extra_reward_amt := 0
    num_better_cards := 0, all_card_rewards := [gapCRWitness] }

/-! ## Helper view of the reward arithmetic -/

/-- Per-dollar raw unit rate: the factor `u` with
`rawRewardPoints card a category = a * u`. -/
def unitRate (card : Card) (category : String) : ℚ :=
  if card.reward_type = "points" ∨ card.reward_type = "miles" then
    applicableRate card category
  else
    applicableRate card category / 100

/-! ## ActionSelector (`action_selector.py`) -/

/-- Transaction fields read by the action selector. -/
structure Txn where
  category : String
  current_card_id : Option String
  deriving DecidableEq

/-- Fields of the reward-analysis dictionary read by `select_action`. -/
structure RewardTable where
  best_card_id : String
  num_better_cards : ℕ
  extra_reward_amt : ℚ
  deriving DecidableEq

/-- Recommendation returned by `select_action` (the free-text `reasoning`
string is omitted; the `rule` tag and `from_card` of the metadata dict are
kept). -/
structure ActionRecommendation where
  action : String
  card_id : String
  confidence : ℚ
  rule : String
  from_card : Option String
  deriving DecidableEq

/-- Character-list helper: does the second list start with the first? -/
def charsStartWith : List Char → List Char → Bool
  | [], _ => true
  | _ :: _, [] => false
  | p :: ps, c :: cs => p == c && charsStartWith ps cs

/-- Character-list helper: does the pattern occur somewhere in the list?
Models Python's `pat in s` membership test on strings. -/
def charsHaveSub (pat : List Char) : List Char → Bool
  | [] => pat.isEmpty
  | c :: cs => charsStartWith pat (c :: cs) || charsHaveSub pat cs

/-- Python `pat in s` on strings. -/
def strHasSub (s pat : String) : Bool :=
  charsHaveSub pat.data s.data

/-- Constant from `ActionSelector.__init__`. -/
def max_cards_per_user : ℕ := 5

/-- Constant from `ActionSelector.__init__`. -/
def switch_benefit_threshold : ℚ := 100.0

/-- Known plain-cashback cards (`_find_worst_card`). -/
def basic_cashback_cards : List String :=
  ["citi_double_cash_card", "wells_fargo_active_cash_card", "capital_one_quicksilver"]

/-- Model of `ActionSelector._find_worst_card`: with no (or empty) spending
pattern return the first owned card; otherwise prefer a known plain-cashback
card, else the first owned card.  (Python indexes `user_cards[0]`; callers
only reach this with a nonempty list, so the empty case is totalised with
`""`.) -/
def find_worst_card (user_cards : List String)
    (spending_pattern : Option (List (String × ℚ))) : String :=
  match spending_pattern with
  | none => user_cards.headD ""
  | some sp =>
    if sp.isEmpty then user_cards.headD ""
    else
      match user_cards.find? (fun c => basic_cashback_cards.contains c) with
      | some c => c
      | none => user_cards.headD ""

/-- Model of `ActionSelector._find_least_used_card`. -/
def find_least_used_card (user_cards : List String) : String :=
  match user_cards with
  | [] => ""
  | c :: _ => c

/-- Category→specialist table of `_check_category_coverage`. -/
def category_specialists (category : String) : List String :=
  if category = "dining" then
    ["american_express_gold_card", "capital_one_savor", "chase_sapphire_preferred"]
  else if category = "travel" then
    ["chase_sapphire_preferred", "chase_sapphire_reserve", "capital_one_venture_rewards"]
  else if category = "groceries" then
    ["blue_cash_preferred_card", "american_express_gold_card"]
  else if category = "gas" then
    ["blue_cash_preferred_card", "discover_it_cash_back"]
  else []

/-- The `has_good_coverage` flag of `_check_category_coverage`. -/
def check_category_coverage (category : String) (user_cards : List String) : Bool :=
  user_cards.any fun c => (category_specialists category).contains c

/-- Model of `ActionSelector._estimate_annual_benefit`. -/
def estimate_annual_benefit (new_card_id : String)
    (current_card_id : Option String)
    (spending_pattern : List (String × ℚ)) : ℚ :=
  let total_annual_spending := (spending_pattern.map fun p => p.2).sum
  let new_card_multiplier : ℚ :=
    if strHasSub new_card_id.toLower "sapphire" then 2.0
    else if strHasSub new_card_id.toLower "gold" then 1.8
    else if strHasSub new_card_id.toLower "double_cash" then 1.4
    else 1.5
  let current_card_multiplier : ℚ := 1.0
  max 0 (total_annual_spending * 0.01 * (new_card_multiplier - current_card_multiplier))

/-- Condition of rule 5 (`if user_spending_pattern:` — `None` and the empty
dict are both falsy — followed by the benefit-threshold test). -/
def rule5Fires (best_card_id : String) (ccid : Option String)
    (usp : Option (List (String × ℚ))) : Bool :=
  match usp with
  | none => false
  | some sp =>
    !sp.isEmpty && decide (switch_benefit_threshold ≤ estimate_annual_benefit best_card_id ccid sp)

/-- Model of `ActionSelector.select_action` (lines 40–186): the ordered rule
cascade, first match wins. -/
def select_action (txn : Txn) (reward_analysis : RewardTable)
    (user_cards : List String)
    (user_spending_pattern : Option (List (String × ℚ))) : ActionRecommendation :=
  let best_card_id := reward_analysis.best_card_id
  let extra_reward_amt := reward_analysis.extra_reward_amt
  if user_cards.contains best_card_id then
    { action := "none", card_id := best_card_id, confidence := 0,
      rule := "already_has_best_card", from_card := none }
  else if extra_reward_amt < 0.02 then
    { action := "none", card_id := best_card_id, confidence := 0,
      rule := "insufficient_benefit", from_card := none }
  else if max_cards_per_user ≤ user_cards.length then
    { action := "switch", card_id := best_card_id, confidence := 0.8,
      rule := "max_cards_reached",
      from_card := some (find_worst_card user_cards user_spending_pattern) }
  else if ["dining", "travel", "groceries"].contains txn.category
      && !check_category_coverage txn.category user_cards then
    { action := "add", card_id := best_card_id, confidence := 0.9,
      rule := "category_specialization", from_card := none }
  else if rule5Fires best_card_id txn.current_card_id user_spending_pattern then
    { action := "switch", card_id := best_card_id, confidence := 0.85,
      rule := "high_annual_benefit", from_card := txn.current_card_id }
  else if 0.05 ≤ extra_reward_amt ∧ user_cards.length < 3 then
    { action := "add", card_id := best_card_id, confidence := 0.6,
      rule := "portfolio_expansion", from_card := none }
  else if 3 ≤ user_cards.length then
    { action := "switch", card_id := best_card_id, confidence := 0.7,
      rule := "optimize_existing_portfolio",
      from_card := some (find_least_used_card user_cards) }
  else
    { action := "add", card_id := best_card_id, confidence := 0.4,
      rule := "fallback_add", from_card := none }

/-- Model of the module-level `select_actions` (lines 287–323): defaults an
omitted `user_cards` to the single card `citi_double_cash_card` and
delegates (the JSON serialization of the result is outside the embedding). -/
def select_actions (txn : Txn) (reward_table : RewardTable)
    (user_cards : Option (List String))
    (user_spending : Option (List (String × ℚ))) : ActionRecommendation :=
  let uc := match user_cards with
    | none => ["citi_double_cash_card"]
    | some l => l
  select_action txn reward_table uc user_spending

/-- A dining transaction used by the action-selector theorems. -/
def cexTxn : Txn := { category := "dining", current_card_id := some "cur_card" }

/-- A reward table whose extra reward is below the 2¢ threshold. -/
def cexRewardLow : RewardTable :=
  { best_card_id := "american_express_gold_card", num_better_cards := 3,
    extra_reward_amt := 0.01 }

/-- A reward table with a comfortable extra reward. -/
def cexRewardGood : RewardTable :=
  { best_card_id := "american_express_gold_card", num_better_cards := 3,
    extra_reward_amt := 2 }

/-- Five distinct owned card ids. -/
def fiveCards : List String := ["card1", "card2", "card3", "card4", "card5"]

/-- A reward table naming the default card as best. -/
def c10Reward : RewardTable :=
  { best_card_id := "citi_double_cash_card", num_better_cards := 0,
    extra_reward_amt := 5 }

/-! ## RankingEngine (`enhanced_ranking.py`) -/

/-- Entry of the ranked list built by `calculate_personalized_ranking`
(display fields `issuer`, `card_name`, the `category_breakdown` dict and the
`reason` string are omitted). -/
structure RankEntry where
  card_id : String
  ranking_score : ℚ
  annual_fee : ℚ
  signup_bonus : ℚ
  annual_reward : ℚ
  net_benefit : ℚ
  deriving DecidableEq

/-- Rate selection of the ranking loop (lines 47–50): a direct
`bonus_categories` lookup (no alias handling and no max with base, unlike
`get_reward_rate_for_category`), else the base rate. -/
def rateForRanking (card : Card) (category : String) : ℚ :=
  match lookupCat card.bonus_categories category with
  | some r => r
  | none => card.base_rate_pct

/-- Annual reward of one spending category (lines 52–60). -/
def categoryReward (card : Card) (category : String) (monthly_amount : ℚ) : ℚ :=
  let rate := rateForRanking card category
  if card.reward_type = "cashback" then
    monthly_amount * 12 * (rate / 100)
  else
    monthly_amount * 12 * rate * (card.point_value_cent / 100)

/-- Accumulated annual reward over the spending pattern (lines 44–62). -/
def annualRewardFor (card : Card) (sp : List (String × ℚ)) : ℚ :=
  sp.foldl (fun acc p => acc + categoryReward card p.1 p.2) 0

/-- Model of `calculate_composite_score` (lines 96–128 of
`enhanced_ranking.py`; the identical inline copy lives in
`api.py::personalized_ranking`). -/
def calculate_composite_score (net_benefit annual_fee total_spending
    signup_bonus : ℚ) : ℚ :=
  let benefit_score := min (net_benefit / 1000) 1 * 0.5
  let effectiveness_score :=
    if 0 < total_spending then
      min ((net_benefit + annual_fee) / total_spending * 10) 1 * 0.3
    else 0
  let fee_penalty :=
    if 36000 < total_spending then min (annual_fee / 1000) 0.1
    else min (annual_fee / 500) 0.2
  let bonus_score := min (signup_bonus / 2000) 0.2
  let score := benefit_score + effectiveness_score + bonus_score - fee_penalty
  max 0.1 (min 1.0 score)

/-- Ranking entry built for one candidate card (lines 33–88). -/
def rankEntryFor (sp : List (String × ℚ)) (card : Card) : RankEntry :=
  let annual_reward := annualRewardFor card sp
  let annual_fee := card.annual_fee
  let net_benefit := annual_reward - annual_fee
  let total_spending := (sp.map fun p => p.2).sum * 12
  let score := calculate_composite_score net_benefit annual_fee total_spending
    card.signup_bonus_value
  { card_id := card.card_id, ranking_score := score, annual_fee := annual_fee
    signup_bonus := card.signup_bonus_value, annual_reward := annual_reward
    net_benefit := net_benefit }

/-- Descending order on `ranking_score`, the sort key of line 91. -/
def scoreDescRel (a b : RankEntry) : Prop :=
  b.ranking_score ≤ a.ranking_score

instance : DecidableRel scoreDescRel :=
  fun a b => inferInstanceAs (Decidable (b.ranking_score ≤ a.ranking_score))

instance : IsTotal RankEntry scoreDescRel :=
  ⟨fun a b => le_total b.ranking_score a.ranking_score⟩

instance : IsTrans RankEntry scoreDescRel :=
  ⟨fun _ _ _ h1 h2 => le_trans h2 h1⟩

/-- Model of `calculate_personalized_ranking` (lines 9–93): score every
catalog card not already owned, then stable-sort descending by score. -/
def calculate_personalized_ranking (sp : List (String × ℚ))
    (card_catalog : List Card) (user_cards : List String) : List RankEntry :=
  let rankings :=
    (card_catalog.filter fun c => !user_cards.contains c.card_id).map
      (rankEntryFor sp)
  rankings.insertionSort scoreDescRel

/-- A plain 1% cashback card with lexically small id `aaa`. -/
def rankCardA : Card :=
  { card_id := "aaa", issuer := "TestBank", reward_type := "cashback"
    base_rate_pct := 1, bonus_categories := [], bonus_cap_amt := 0
    annual_fee := 0, point_value_cent := 100, signup_bonus_value := 0 }

/-- The same card under the lexically larger id `bbb`. -/
def rankCardB : Card :=
  { card_id := "bbb", issuer := "TestBank", reward_type := "cashback"
    base_rate_pct := 1, bonus_categories := [], bonus_cap_amt := 0
    annual_fee := 0, point_value_cent := 100, signup_bonus_value := 0 }

/-- A one-category spending pattern: $100/month dining. -/
def spDining : List (String × ℚ) := [("dining", 100)]

/-- Ranking entry of `rankCardA` on the dining pattern, used by the C7
witness: score `max 0.1 (min 1 0.036) = 1/10`. -/
def rankEntryAWitness : RankEntry :=
  { card_id := "aaa", ranking_score := 1/10, annual_fee := 0
    signup_bonus := 0, annual_reward := 12, net_benefit := 12 }

/-! ## Spec-worded variant for the C8 refinement comparison -/

/-- Composite score written with the signup-bonus term as the SPEC words it
(`min(signup_bonus/2000, 1.0) × 0.2`), for refinement comparison with
`calculate_composite_score`; all other terms are the code's. -/
def specCompositeScore (net_benefit annual_fee total_spending
    signup_bonus : ℚ) : ℚ :=
  let benefit_score := min (net_benefit / 1000) 1 * 0.5
  let effectiveness_score :=
    if 0 < total_spending then
      min ((net_benefit + annual_fee) / total_spending * 10) 1 * 0.3
    else 0
  let fee_penalty :=
    if 36000 < total_spending then min (annual_fee / 1000) 0.1
    else min (annual_fee / 500) 0.2
  let bonus_score := min (signup_bonus / 2000) 1 * 0.2
  let score := benefit_score + effectiveness_score + bonus_score - fee_penalty
  max 0.1 (min 1.0 score)

/-! ## Facts about the descending reward sort -/

/-- Sorting permutes the reward list. -/
theorem sortRewardsDesc_perm (l : List CardReward) : List.Perm (sortRewardsDesc l) l :=
  List.perm_insertionSort rewardDescRel l

/-- The sorted list is non-increasing in `reward_amount`. -/
theorem sortRewardsDesc_sorted (l : List CardReward) :
    List.Sorted rewardDescRel (sortRewardsDesc l) :=
  List.sorted_insertionSort rewardDescRel l

/-- On a nonempty catalog the sorted reward list is a nonempty cons whose
analysis is `analyzeCore`. -/
theorem analyze_transaction_eq_core (cards : List Card) (amount : ℚ)
    (category : String) (ccid : Option String) (b : CardReward)
    (rest : List CardReward)
    (h : sortRewardsDesc (cards.map fun c => calculate_reward_amount c amount category)
          = b :: rest) :
    analyze_transaction cards amount category ccid
      = some (analyzeCore amount category ccid b (b :: rest)) := by
  unfold analyze_transaction
  rw [h]

/-! ## C9: empty catalog takes the error branch -/

/-- C9: for every transaction, `analyze_transaction` over an empty catalog
takes the error branch of the embedding (`none`, standing for the raised
exception at `all_rewards[0]`) instead of silently returning an analysis
with no best card. -/
theorem analyze_transaction_empty_catalog_err (amount : ℚ) (category : String)
    (ccid : Option String) :
    analyze_transaction [] amount category ccid = none := rfl

/-! ## C1: the best card dominates every computed reward -/

/-- C1: for every transaction and nonempty catalog, `analyze_transaction`
succeeds, its `best_card_reward` has `reward_amount` at least that of every
entry of `all_card_rewards`, and `best_card_reward` is the head of
`all_card_rewards`, which is ordered descending (non-increasing) by
`reward_amount`. -/
theorem analyze_transaction_best_is_max (cards : List Card) (amount : ℚ)
    (category : String) (ccid : Option String) (h : cards ≠ []) :
    ∃ ra, analyze_transaction cards amount category ccid = some ra ∧
      (∀ r ∈ ra.all_card_rewards,
        r.reward_amount ≤ ra.best_card_reward.reward_amount) ∧
      ra.all_card_rewards.head? = some ra.best_card_reward ∧
      List.Sorted rewardDescRel ra.all_card_rewards := by
  have hmap : (cards.map fun c => calculate_reward_amount c amount category) ≠ [] := by
    simpa using h
  have hsne : sortRewardsDesc (cards.map fun c => calculate_reward_amount c amount category) ≠ [] := by
    intro h0
    have hp := sortRewardsDesc_perm (cards.map fun c => calculate_reward_amount c amount category)
    rw [h0] at hp
    exact hmap hp.nil_eq.symm
  obtain ⟨b, rest, hbr⟩ := List.exists_cons_of_ne_nil hsne
  have hsorted := sortRewardsDesc_sorted
    (cards.map fun c => calculate_reward_amount c amount category)
  rw [hbr] at hsorted
  refine ⟨analyzeCore amount category ccid b (b :: rest),
    analyze_transaction_eq_core cards amount category ccid b rest hbr, ?_, ?_, ?_⟩
  · intro r hr
    have hall : (analyzeCore amount category ccid b (b :: rest)).all_card_rewards
        = b :: rest := rfl
    have hbest : (analyzeCore amount category ccid b (b :: rest)).best_card_reward
        = b := rfl
    rw [hall] at hr
    rw [hbest]
    rcases List.mem_cons.1 hr with h1 | h1
    · exact h1 ▸ le_refl _
    · exact List.rel_of_sorted_cons hsorted r h1
  · rfl
  · exact hsorted

/-- Witness for C1 on a concrete one-card catalog. -/
theorem analyze_transaction_best_is_max_witness :
    ∃ ra, analyze_transaction [flatTwoCard] 100 "dining" none = some ra ∧
      (∀ r ∈ ra.all_card_rewards,
        r.reward_amount ≤ ra.best_card_reward.reward_amount) ∧
      ra.all_card_rewards.head? = some ra.best_card_reward ∧
      List.Sorted rewardDescRel ra.all_card_rewards :=
  analyze_transaction_best_is_max [flatTwoCard] 100 "dining" none
    (List.cons_ne_nil _ _)

/-! ## C2: the reward gap against the current card -/

/-- C2 counterexample: a $1000 dining transaction where the current card
(`capDiningCard`) has a 10% dining bonus throttled by a $1 bonus cap.  The
best card is chosen by the *capped* `reward_amount` (the flat 2% card wins,
$20 vs $10.09), but the gap is computed from *uncapped* pure rewards
($20 vs $100), so `reward_gap_pct = -80 < 0` even though the amount is
positive and the current card resolves in the catalog. -/
theorem reward_gap_pct_neg_cex :
    ((analyze_transaction [capDiningCard, flatTwoCard] 1000 "dining"
        (some "cap_dining_card")).map RewardAnalysis.reward_gap_pct)
      = some (-80) ∧ (-80 : ℚ) < 0 := by
  constructor
  · with_unfolding_all decide
  · norm_num

/-- C2 (amended): for a transaction with `amount > 0` whose
`current_card_id` resolves in the catalog, `reward_gap_pct ≥ 0` holds
under the additional hypothesis that every card's computed `reward_amount`
coincides with its pure reward (which fails exactly when a bonus cap binds
or a cashback card's point value departs from 100¢ — see the
counterexample). -/
theorem reward_gap_pct_nonneg_of_pure (cards : List Card) (amount : ℚ)
    (category : String) (cid : String) (hamt : 0 < amount)
    (hpure : ∀ c ∈ cards,
      (calculate_reward_amount c amount category).reward_amount
        = pureReward amount (calculate_reward_amount c amount category))
    (ra : RewardAnalysis)
    (hra : analyze_transaction cards amount category (some cid) = some ra)
    (cr : CardReward) (hcr : ra.current_card_reward = some cr) :
    0 ≤ ra.reward_gap_pct := by
  rcases hl : sortRewardsDesc (cards.map fun c => calculate_reward_amount c amount category)
      with _ | ⟨b, rest⟩
  · rw [show analyze_transaction cards amount category (some cid)
        = none by unfold analyze_transaction; rw [hl]] at hra
    exact absurd hra (by simp)
  have hra' := analyze_transaction_eq_core cards amount category (some cid) b rest hl
  rw [hra] at hra'
  have hra2 : ra = analyzeCore amount category (some cid) b (b :: rest) :=
    Option.some.inj hra'
  have hfind : (b :: rest).find? (fun r => r.card_id == cid) = some cr := by
    have h0 := hcr
    rw [hra2] at h0
    simpa [analyzeCore] using h0
  have hmem : cr ∈ b :: rest := List.mem_of_find?_eq_some hfind
  have hperm := sortRewardsDesc_perm
    (cards.map fun c => calculate_reward_amount c amount category)
  rw [hl] at hperm
  have hpure' : ∀ r ∈ b :: rest, r.reward_amount = pureReward amount r := by
    intro r hr
    obtain ⟨c, hc, hcr'⟩ := List.mem_map.1 (hperm.mem_iff.1 hr)
    rw [← hcr']
    exact hpure c hc
  have hsorted := sortRewardsDesc_sorted
    (cards.map fun c => calculate_reward_amount c amount category)
  rw [hl] at hsorted
  have hble : cr.reward_amount ≤ b.reward_amount := by
    rcases List.mem_cons.1 hmem with h1 | h1
    · exact h1 ▸ le_refl _
    · exact List.rel_of_sorted_cons hsorted cr h1
  have hpb : pureReward amount b = b.reward_amount :=
    (hpure' b (List.mem_cons_self b rest)).symm
  have hpc : pureReward amount cr = cr.reward_amount :=
    (hpure' cr hmem).symm
  have hgap : ra.reward_gap_pct =
      if 0 < pureReward amount cr then
        (pureReward amount b - pureReward amount cr) / pureReward amount cr * 100
      else 0 := by
    rw [hra2]
    simp [analyzeCore, hfind]
  rw [hgap]
  split
  · next hpos =>
    apply mul_nonneg _ (by norm_num)
    apply div_nonneg _ (le_of_lt hpos)
    rw [hpb, hpc]
    exact sub_nonneg.2 hble
  · exact le_refl 0

/-- Witness for the amended C2 theorem at a concrete uncapped catalog. -/
theorem reward_gap_pct_nonneg_of_pure_witness :
    0 ≤ gapRAWitness.reward_gap_pct :=
  reward_gap_pct_nonneg_of_pure [flatTwoCard] 100 "other" "flat_two_card"
    (by norm_num) (by with_unfolding_all decide) gapRAWitness
    (by with_unfolding_all decide) gapCRWitness (by with_unfolding_all decide)

/-! ## C4: the `num_better_cards` count -/

/-- C4 counterexample: over the one-card catalog `[flatTwoCard]` with no
current card, the code returns `num_better_cards = 1` (the full catalog
size), not catalog size minus the best card (`1 - 1 = 0`) as the claim
states. -/
theorem num_better_cards_cex :
    ((analyze_transaction [flatTwoCard] 100 "other" none).map
        RewardAnalysis.num_better_cards) = some 1 ∧
      ([flatTwoCard].length - 1 = 0) := by
  constructor
  · with_unfolding_all decide
  · rfl

/-- C4 (amended): for every transaction and nonempty catalog,
`num_better_cards` equals the number of catalog cards whose `reward_amount`
strictly exceeds the current card's when the current card resolves, and
equals the *full* catalog size (not size minus one) when no current card
resolves. -/
theorem num_better_cards_spec (cards : List Card) (amount : ℚ)
    (category : String) (ccid : Option String) (h : cards ≠ []) :
    ∃ ra, analyze_transaction cards amount category ccid = some ra ∧
      (∀ cr, ra.current_card_reward = some cr →
        ra.num_better_cards = cards.countP fun c =>
          cr.reward_amount < (calculate_reward_amount c amount category).reward_amount) ∧
      (ra.current_card_reward = none → ra.num_better_cards = cards.length) := by
  rcases hl : sortRewardsDesc (cards.map fun c => calculate_reward_amount c amount category)
      with _ | ⟨b, rest⟩
  · exfalso
    have hp := sortRewardsDesc_perm (cards.map fun c => calculate_reward_amount c amount category)
    rw [hl] at hp
    exact h (by simpa using hp.nil_eq.symm)
  have hperm := sortRewardsDesc_perm
    (cards.map fun c => calculate_reward_amount c amount category)
  rw [hl] at hperm
  refine ⟨analyzeCore amount category ccid b (b :: rest),
    analyze_transaction_eq_core cards amount category ccid b rest hl, ?_, ?_⟩
  · intro cr hcr
    cases ccid with
    | none => exact absurd hcr (by simp [analyzeCore])
    | some cid =>
      have hfind : (b :: rest).find? (fun r => r.card_id == cid) = some cr := by
        simpa [analyzeCore] using hcr
      have hnum : (analyzeCore amount category (some cid) b (b :: rest)).num_better_cards
          = ((b :: rest).filter fun r => cr.reward_amount < r.reward_amount).length := by
        simp [analyzeCore, hfind]
      rw [hnum, ← List.countP_eq_length_filter, hperm.countP_eq, List.countP_map]
      rfl
  · intro hcr
    cases ccid with
    | none =>
      have hnum : (analyzeCore amount category none b (b :: rest)).num_better_cards
          = (b :: rest).length := by
        simp [analyzeCore]
      rw [hnum, hperm.length_eq, List.length_map]
    | some cid =>
      have hfind : (b :: rest).find? (fun r => r.card_id == cid) = none := by
        simpa [analyzeCore] using hcr
      have hnum : (analyzeCore amount category (some cid) b (b :: rest)).num_better_cards
          = (b :: rest).length := by
        simp [analyzeCore, hfind]
      rw [hnum, hperm.length_eq, List.length_map]

/-- Witness for the amended C4 theorem on a concrete one-card catalog. -/
theorem num_better_cards_spec_witness :
    ∃ ra, analyze_transaction [flatTwoCard] 100 "other" none = some ra ∧
      (∀ cr, ra.current_card_reward = some cr →
        ra.num_better_cards = [flatTwoCard].countP fun c =>
          cr.reward_amount < (calculate_reward_amount c 100 "other").reward_amount) ∧
      (ra.current_card_reward = none → ra.num_better_cards = [flatTwoCard].length) :=
  num_better_cards_spec [flatTwoCard] 100 "other" none (by simp)

/-! ## C3: sub-linear growth past the bonus cap -/

theorem rawRewardPoints_eq_mul (card : Card) (amount : ℚ) (category : String) :
    rawRewardPoints card amount category = amount * unitRate card category := by
  unfold rawRewardPoints unitRate
  split <;> rfl

theorem applicableRate_of_bonus (card : Card) (category : String)
    (h : card.base_rate_pct < get_reward_rate_for_category card category) :
    applicableRate card category = get_reward_rate_for_category card category := by
  unfold applicableRate
  rw [if_pos h]

theorem unitRate_pos (card : Card) (category : String)
    (hbase : 0 ≤ card.base_rate_pct)
    (hbonus : card.base_rate_pct < get_reward_rate_for_category card category) :
    0 < unitRate card category := by
  have hr : 0 < applicableRate card category := by
    rw [applicableRate_of_bonus card category hbonus]
    exact lt_of_le_of_lt hbase hbonus
  unfold unitRate
  split
  · exact hr
  · positivity

/-- Closed form of the cap blend in the capped region (at the boundary the
two branches agree). -/
theorem cappedRewardPoints_of_ge (card : Card) (amount : ℚ) (category : String)
    (hcap : 0 < card.bonus_cap_amt)
    (hbonus : card.base_rate_pct < get_reward_rate_for_category card category)
    (h : maxBonusPoints card category ≤ rawRewardPoints card amount category) :
    cappedRewardPoints card amount category
      = maxBonusPoints card category
        + (rawRewardPoints card amount category - maxBonusPoints card category)
          * card.base_rate_pct / get_reward_rate_for_category card category := by
  unfold cappedRewardPoints
  rw [if_pos ⟨hcap, hbonus⟩]
  rcases lt_or_eq_of_le h with h1 | h1
  · rw [if_pos h1]
  · have hnlt : ¬ maxBonusPoints card category < rawRewardPoints card amount category := by
      rw [h1]
      exact lt_irrefl _
    rw [if_neg hnlt, ← h1]
    ring

/-- Closed form of the cap blend in the uncapped region. -/
theorem cappedRewardPoints_of_le (card : Card) (amount : ℚ) (category : String)
    (h : rawRewardPoints card amount category ≤ maxBonusPoints card category) :
    cappedRewardPoints card amount category = rawRewardPoints card amount category := by
  simp only [cappedRewardPoints]
  split
  · rw [if_neg (not_lt.2 h)]
  · rfl

theorem reward_amount_eq_capped_mul (card : Card) (amount : ℚ) (category : String) :
    (calculate_reward_amount card amount category).reward_amount
      = cappedRewardPoints card amount category * (card.point_value_cent / 100) := rfl

/-- C3: for a card with a positive bonus cap, a positive point value and a
category bonus rate strictly above base, `calculate_reward_amount` grows
strictly sub-linearly past the cap: the reward gained from an extra `d`
dollars spent in the capped region (raw units already at or above
`max_bonus_units`) is strictly less than the reward gained from the same
extra `d` dollars in the below-cap region. -/
theorem calculate_reward_amount_sublinear_past_cap (card : Card)
    (category : String) (a b d : ℚ)
    (hcap : 0 < card.bonus_cap_amt)
    (hpv : 0 < card.point_value_cent)
    (hbase : 0 ≤ card.base_rate_pct)
    (hbonus : card.base_rate_pct < get_reward_rate_for_category card category)
    (hd : 0 < d)
    (hbelow : rawRewardPoints card (b + d) category ≤ maxBonusPoints card category)
    (habove : maxBonusPoints card category ≤ rawRewardPoints card a category) :
    (calculate_reward_amount card (a + d) category).reward_amount
        - (calculate_reward_amount card a category).reward_amount
      < (calculate_reward_amount card (b + d) category).reward_amount
        - (calculate_reward_amount card b category).reward_amount := by
  set base := card.base_rate_pct with hbase_def
  set bonus := get_reward_rate_for_category card category with hbonus_def
  set u := unitRate card category with hu_def
  set M := maxBonusPoints card category with hM_def
  set pv := card.point_value_cent / 100 with hpv_def
  have hu : 0 < u := unitRate_pos card category hbase hbonus
  have hpv' : 0 < pv := by positivity
  have hbonus0 : 0 < bonus := lt_of_le_of_lt hbase hbonus
  have habove' : M ≤ rawRewardPoints card (a + d) category := by
    rw [rawRewardPoints_eq_mul] at habove ⊢
    have : a * u ≤ (a + d) * u := by nlinarith
    exact le_trans habove this
  have hbelow' : rawRewardPoints card b category ≤ M := by
    rw [rawRewardPoints_eq_mul] at hbelow ⊢
    have : b * u ≤ (b + d) * u := by nlinarith
    exact le_trans this hbelow
  have e1 : (calculate_reward_amount card (a + d) category).reward_amount
      - (calculate_reward_amount card a category).reward_amount
      = (d * u * pv) * (base / bonus) := by
    rw [reward_amount_eq_capped_mul, reward_amount_eq_capped_mul,
      cappedRewardPoints_of_ge card (a + d) category hcap hbonus habove',
      cappedRewardPoints_of_ge card a category hcap hbonus habove,
      rawRewardPoints_eq_mul, rawRewardPoints_eq_mul]
    ring
  have e2 : (calculate_reward_amount card (b + d) category).reward_amount
      - (calculate_reward_amount card b category).reward_amount
      = d * u * pv := by
    rw [reward_amount_eq_capped_mul, reward_amount_eq_capped_mul,
      cappedRewardPoints_of_le card (b + d) category hbelow,
      cappedRewardPoints_of_le card b category hbelow',
      rawRewardPoints_eq_mul, rawRewardPoints_eq_mul]
    ring
  rw [e1, e2]
  have hq : base / bonus < 1 := (div_lt_one hbonus0).2 hbonus
  have hdupv : 0 < d * u * pv := by positivity
  exact mul_lt_of_lt_one_right hdupv hq

/-- Witness for C3 on `capHundredCard` ($100 bonus cap, 10% dining bonus,
1% base): spending $10 more at $200 (capped region) earns strictly less
than spending $10 more at $0 (below-cap region). -/
theorem calculate_reward_amount_sublinear_past_cap_witness :
    (calculate_reward_amount capHundredCard (200 + 10) "dining").reward_amount
        - (calculate_reward_amount capHundredCard 200 "dining").reward_amount
      < (calculate_reward_amount capHundredCard (0 + 10) "dining").reward_amount
        - (calculate_reward_amount capHundredCard 0 "dining").reward_amount :=
  calculate_reward_amount_sublinear_past_cap capHundredCard "dining" 200 0 10
    (by norm_num [capHundredCard]) (by norm_num [capHundredCard])
    (by norm_num [capHundredCard]) (by with_unfolding_all decide)
    (by norm_num) (by with_unfolding_all decide) (by with_unfolding_all decide)

/-! ## C5: the max-cards rule -/

/-- C5 counterexample: with five distinct owned cards but
`extra_reward_amt = $0.01`, rule 2 (`insufficient_benefit`) fires before
rule 3, so the result is `none` with confidence 0 — not `switch` with
confidence 0.8 — contradicting "regardless of the underlying reward
numbers". -/
theorem select_action_five_cards_cex :
    (select_action cexTxn cexRewardLow fiveCards none).action = "none" ∧
    (select_action cexTxn cexRewardLow fiveCards none).confidence = 0 ∧
    (select_action cexTxn cexRewardLow fiveCards none).rule = "insufficient_benefit" ∧
    (select_action cexTxn cexRewardLow fiveCards none).action ≠ "switch" := by
  refine ⟨?_, ?_, ?_, ?_⟩ <;> with_unfolding_all decide

/-- C5 (amended): with at least `max_cards_per_user = 5` owned cards, and
provided the earlier rules do not fire (the best card is not already owned
and `extra_reward_amt ≥ $0.02`), `select_action` returns `switch` with
confidence 0.8 under rule `max_cards_reached`, for any best card id and any
such extra reward. -/
theorem select_action_max_cards (txn : Txn) (rt : RewardTable)
    (user_cards : List String) (usp : Option (List (String × ℚ)))
    (h1 : rt.best_card_id ∉ user_cards)
    (h2 : (0.02 : ℚ) ≤ rt.extra_reward_amt)
    (h3 : max_cards_per_user ≤ user_cards.length) :
    (select_action txn rt user_cards usp).action = "switch" ∧
    (select_action txn rt user_cards usp).confidence = 0.8 ∧
    (select_action txn rt user_cards usp).rule = "max_cards_reached" := by
  have h1' : user_cards.contains rt.best_card_id = false := by
    simpa using h1
  have h2' : ¬ rt.extra_reward_amt < 0.02 := not_lt.2 h2
  refine ⟨?_, ?_, ?_⟩ <;> simp [select_action, h1, h1', h2', h3]

/-- Witness for the amended C5 theorem on five concrete distinct cards. -/
theorem select_action_max_cards_witness :
    (select_action cexTxn cexRewardGood fiveCards none).action = "switch" ∧
    (select_action cexTxn cexRewardGood fiveCards none).confidence = 0.8 ∧
    (select_action cexTxn cexRewardGood fiveCards none).rule = "max_cards_reached" :=
  select_action_max_cards cexTxn cexRewardGood fiveCards none
    (by decide) (by with_unfolding_all decide) (by decide)

/-! ## C10: the default portfolio of `select_actions` -/

/-- C10: when `user_cards` is omitted (`none`), `select_actions` decides
exactly as if the user owned the single card `citi_double_cash_card`; in
particular, if the analysis names `citi_double_cash_card` as best, the
action is `none` under rule `already_has_best_card`. -/
theorem select_actions_default_card (txn : Txn) (rt : RewardTable)
    (usp : Option (List (String × ℚ))) :
    select_actions txn rt none usp
        = select_action txn rt ["citi_double_cash_card"] usp ∧
      (rt.best_card_id = "citi_double_cash_card" →
        (select_actions txn rt none usp).action = "none" ∧
        (select_actions txn rt none usp).rule = "already_has_best_card") := by
  constructor
  · rfl
  · intro hb
    constructor <;> simp [select_actions, select_action, hb]

/-- Witness for C10 with the best card equal to the default card. -/
theorem select_actions_default_card_witness :
    (select_actions cexTxn c10Reward none none).action = "none" ∧
    (select_actions cexTxn c10Reward none none).rule = "already_has_best_card" :=
  (select_actions_default_card cexTxn c10Reward none).2 rfl

/-! ## C6: ordering of the ranked list -/

/-- C6 counterexample: two identically-scoring cards listed in the catalog
as `["bbb", "aaa"]` come back in catalog order `["bbb", "aaa"]` (the sort is
stable), not in ascending `card_id` order `["aaa", "bbb"]`, although
`"aaa" < "bbb"` lexically and both scores are the clamped minimum `1/10`. -/
theorem ranking_tie_order_cex :
    ((calculate_personalized_ranking spDining [rankCardB, rankCardA] []).map
        fun e => (e.card_id, e.ranking_score)) = [("bbb", 1/10), ("aaa", 1/10)] ∧
      ("aaa" : String) < "bbb" := by
  constructor
  · with_unfolding_all decide
  · with_unfolding_all decide

/-- C6 (amended): the returned list is ordered descending (non-increasing)
by score; equal-score cards keep their relative catalog order (stable sort)
rather than being reordered by `card_id`. -/
theorem ranking_sorted_desc (sp : List (String × ℚ)) (catalog : List Card)
    (user_cards : List String) :
    List.Sorted scoreDescRel (calculate_personalized_ranking sp catalog user_cards) :=
  List.sorted_insertionSort scoreDescRel _

/-! ## C7: composite scores stay in [0.1, 1] -/

/-- C7: every composite score lies in `[1/10, 1]`, and therefore so does the
`ranking_score` of every entry of the returned ranked list. -/
theorem ranking_scores_in_range :
    (∀ nb af ts sb, 1/10 ≤ calculate_composite_score nb af ts sb
        ∧ calculate_composite_score nb af ts sb ≤ 1) ∧
    (∀ sp catalog uc e, e ∈ calculate_personalized_ranking sp catalog uc →
      1/10 ≤ e.ranking_score ∧ e.ranking_score ≤ 1) := by
  have hmain : ∀ nb af ts sb, 1/10 ≤ calculate_composite_score nb af ts sb
      ∧ calculate_composite_score nb af ts sb ≤ 1 := by
    intro nb af ts sb
    unfold calculate_composite_score
    constructor
    · exact le_trans (by norm_num) (le_max_left _ _)
    · exact max_le (by norm_num) (le_trans (min_le_left _ _) (by norm_num))
  refine ⟨hmain, ?_⟩
  intro sp catalog uc e he
  have hperm : List.Perm (calculate_personalized_ranking sp catalog uc)
      ((catalog.filter fun c => !uc.contains c.card_id).map (rankEntryFor sp)) :=
    List.perm_insertionSort scoreDescRel _
  obtain ⟨c, _, hce⟩ := List.mem_map.1 (hperm.mem_iff.1 he)
  rw [← hce]
  exact hmain (annualRewardFor c sp - c.annual_fee) c.annual_fee
    ((sp.map fun p => p.2).sum * 12) c.signup_bonus_value

/-- Witness for C7: the bounds hold for a concrete member of a concrete
ranked list. -/
theorem ranking_scores_in_range_witness :
    1/10 ≤ rankEntryAWitness.ranking_score ∧ rankEntryAWitness.ranking_score ≤ 1 :=
  ranking_scores_in_range.2 spDining [rankCardA] [] rankEntryAWitness
    (by with_unfolding_all decide)

/-! ## C8: the signup-bonus term -/

/-- C8 counterexample: at `net_benefit = 1000`, `annual_fee = 0`,
`total_spending = 0`, `signup_bonus = 400`, the code's bonus term is
`min(400/2000, 0.2) = 0.2` (score `0.7`), while the spec's
`min(400/2000, 1.0) × 0.2 = 0.04` would give score `0.54`. -/
theorem signup_bonus_term_cex :
    calculate_composite_score 1000 0 0 400 = 7/10 ∧
    specCompositeScore 1000 0 0 400 = 27/50 ∧
    (7/10 : ℚ) ≠ 27/50 := by
  refine ⟨?_, ?_, by norm_num⟩ <;> with_unfolding_all decide

/-- C8 (amended): the signup-bonus term of the composite score is
`min(signup_bonus/2000, 0.2)` (entering the weighted sum directly, with no
further `× 0.2` weight): with the benefit term pinned to `0.5` and the
other terms zero, the score is `max 0.1 (min 1 (0.5 + min (sb/2000) 0.2))`;
a card with `signup_bonus_value = 400` contributes exactly `0.2`, giving
score `0.7`. -/
theorem signup_bonus_term_amended :
    (∀ sb : ℚ, calculate_composite_score 1000 0 0 sb
        = max 0.1 (min 1.0 (0.5 + min (sb / 2000) 0.2))) ∧
    calculate_composite_score 1000 0 0 400 = 7/10 := by
  constructor
  · intro sb
    unfold calculate_composite_score
    norm_num
  · with_unfolding_all decide

end CrediBot
